import Mathlib

/-!
Shallow embedding of `src/app.py` (a Flask service issuing per-document
context keys and dispatching scoped chat completions), together with proofs
of the specification's claims about it.

Modelling conventions:
* The module-global dict `extracted_texts` is an association list `Dict`;
  `dictGet`, `dictInsert` and `dictPop` mirror Python's `d.get(k)`,
  `d[k] = v` and `d.pop(k, None)`.
* The SQLAlchemy `User` table is a list of `UserRec`; a row's `api_keys`
  JSON column is kept in decoded form as a list of strings.
* `uuid.uuid4().hex` draws are an external entropy source, modelled as a
  stream `uuidHex : Nat → String` indexed by the number of draws so far
  (`ServerState.uuidCount`).
* External collaborators (the document fetcher, the Together completion
  client, the database commit) are oracle parameters; their possible
  outcomes follow the `except` clauses of the handlers.
* A handler is a function from the ambient server state and the request
  fields to the new server state and an HTTP response.
-/

namespace Infinity

/-- A Python string-to-string dict (`extracted_texts`), as an association list. -/
abbrev Dict := List (String × String)

/-- Python `d.get(k)` / `k in d`: the value at the first matching key, if any. -/
def dictGet (d : Dict) (k : String) : Option String :=
  (d.find? (fun p => p.1 == k)).map Prod.snd

/-- Python `d[k] = v`: bind `k` to `v`, replacing any previous binding. -/
def dictInsert (d : Dict) (k v : String) : Dict :=
  (k, v) :: d.filter (fun p => p.1 != k)

/-- Python `d.pop(k, None)`: remove the binding of `k` if present; never an error. -/
def dictPop (d : Dict) (k : String) : Dict :=
  d.filter (fun p => p.1 != k)

/-- Python truthiness test `not field` for a JSON field read with
`request.json.get(...)`: the field is missing (`None`) or the empty string. -/
def isBlank : Option String → Bool
  | none => true
  | some s => s == ""

/-- A row of the `User` model (`api_keys` kept JSON-decoded). -/
structure UserRec where
  id : Nat
  email : String
  password : String
  api_keys : List String
deriving DecidableEq, Repr

/-- The mutable server state the handlers touch: the module-global
`extracted_texts` dict, the `User` table, and the number of uuid draws made. -/
structure ServerState where
  extracted_texts : Dict
  users : List UserRec
  uuidCount : Nat
deriving DecidableEq, Repr

/-- The server state at process start: empty context store, no uuid drawn yet. -/
def initialState (users : List UserRec) : ServerState :=
  ⟨[], users, 0⟩

/-- `User.query.get(uid)`. -/
def findUser (users : List UserRec) (uid : Nat) : Option UserRec :=
  users.find? (fun u => u.id == uid)

/-- Rewrite the rows with id `uid` (commit of a mutated ORM row). -/
def updateUser (users : List UserRec) (uid : Nat) (f : UserRec → UserRec) :
    List UserRec :=
  users.map (fun u => if u.id == uid then f u else u)

/-- JSON payload shapes the handlers return. -/
inductive Payload where
  | errorMsg (msg : String)
  | chatResponse (msg : String)
  | ingested (message api_key integration_code : String)
  | plainMsg (msg : String)
deriving DecidableEq, Repr

/-- An HTTP response: status code and JSON payload. -/
structure HttpResponse where
  status : Nat
  payload : Payload
deriving DecidableEq, Repr

/-- `f"user_{uuid.uuid4().hex}"` applied to one hex draw. -/
def mkApiKey (hex : String) : String := "user_" ++ hex

/-- Lines 157–158 of `app.py` (the context store `Put`): draw a uuid, build the
namespaced key, bind it to the extracted text in `extracted_texts`. -/
def putText (uuidHex : Nat → String) (st : ServerState) (text : String) :
    String × ServerState :=
  let api_key := mkApiKey (uuidHex st.uuidCount)
  (api_key,
    { st with
      extracted_texts := dictInsert st.extracted_texts api_key text
      uuidCount := st.uuidCount + 1 })

/-- A sequence of `Put` calls; returns the issued keys in order. -/
def runPuts (uuidHex : Nat → String) : ServerState → List String → List String × ServerState
  | st, [] => ([], st)
  | st, t :: ts =>
    let p := putText uuidHex st t
    let r := runPuts uuidHex p.2 ts
    (p.1 :: r.1, r.2)

/-- The keys `n` successive `Put` calls issue when `c` uuid draws have
already happened. -/
def keysFrom (u : Nat → String) : Nat → Nat → List String
  | _, 0 => []
  | c, n + 1 => mkApiKey (u c) :: keysFrom u (c + 1) n

/-- `generate_integration_code` (lines 62–66). -/
def generate_integration_code (api_key : String) : String :=
  "\n<!-- AI Chatbot Integration -->\n<script src=\"https://chatcat-s1ny.onrender.com/chatbot.js?api_key=" ++ api_key ++ "\"></script>\n"

/-- The `/process_url` handler (lines 145–176).  `fetch` is the document
fetcher (`extract_text_from_url`), `commit` the outcome of the registry
`db.session.commit()`.  An exception anywhere in the `try` block — fetch
failure, missing user row (attribute access on `None` raises), failed
commit — lands in the `except` and returns `{error}` with 500; a failed
commit leaves the persisted `User` table unchanged. -/
def process_url (uuidHex : Nat → String) (fetch : String → Except String String)
    (commit : Except String Unit) (st : ServerState)
    (sessionUserId : Option Nat) (url : Option String) :
    ServerState × HttpResponse :=
  match sessionUserId with
  | none => (st, ⟨401, .errorMsg "User not logged in"⟩)
  | some uid =>
    if isBlank url then (st, ⟨400, .errorMsg "No URL provided"⟩)
    else
      match fetch (url.getD "") with
      | .error e => (st, ⟨500, .errorMsg e⟩)
      | .ok extracted_text =>
        let p := putText uuidHex st extracted_text
        match findUser p.2.users uid with
        | none => (p.2, ⟨500, .errorMsg "NoneType has no attribute api_keys"⟩)
        | some _ =>
          match commit with
          | .error e => (p.2, ⟨500, .errorMsg e⟩)
          | .ok _ =>
            ({ p.2 with
                users := updateUser p.2.users uid
                  (fun u => { u with api_keys := u.api_keys ++ [p.1] }) },
              ⟨200, .ingested "Processing complete" p.1 (generate_integration_code p.1)⟩)

/-- Outcome of the Together completion call, covering the handler's
`except` clauses: a normal return, `requests.exceptions.RequestException`,
`Together.APIError`, or any other exception. -/
inductive CompletionOutcome where
  | success (text : String)
  | requestException (msg : String)
  | apiError (msg : String)
  | otherError (msg : String)
deriving DecidableEq, Repr

/-- One entry of the `messages` list sent to the completion client. -/
structure ChatMessage where
  role : String
  content : String
deriving DecidableEq, Repr

/-- The pinned generation parameters of the completion call (lines 209–216).
The two literal `0.7` floats are stored scaled by ten. -/
structure GenParams where
  model : String
  max_tokens : Nat
  temperatureTenths : Nat
  topPTenths : Nat
  top_k : Nat
  repetition_penalty : Nat
  stop : List String
deriving DecidableEq, Repr

/-- The constant argument list of `client.chat.completions.create`. -/
def chatGenParams : GenParams :=
  { model := "meta-llama/Meta-Llama-3.1-405B-Instruct-Turbo"
    max_tokens := 512
    temperatureTenths := 7
    topPTenths := 7
    top_k := 50
    repetition_penalty := 1
    stop := ["<|eot_id|>", "<|eom_id|>"] }

/-- The default context (line 188) used when the key has no stored text. -/
def placeholderContext : String := "No context available for this API key."

/-- The part of the system message before the interpolated context. -/
def promptPrefix : String :=
  "You are a helpful AI assistant trained on the following website content: "

/-- The fixed response-formatting policy after the interpolated context. -/
def responsePolicy : String :=
  "\n\nInstructions for providing responses:\n1. Start with a brief, direct answer to the user's question.\n2. If applicable, provide 2-3 key points or examples to support your answer.\n3. Use bullet points or numbered lists for clarity when appropriate.\n4. If the question is unclear, politely ask for clarification.\n5. Keep your total response under 150 words unless more detail is explicitly requested.\n6. End with a follow-up question or suggestion if relevant."

/-- The f-string system message of lines 193–201. -/
def systemPrompt (context : String) : String :=
  promptPrefix ++ context ++ responsePolicy

/-- Line 188: `extracted_texts.get(api_key, "No context available ...")`. -/
def resolveContext (texts : Dict) (api_key : String) : String :=
  (dictGet texts api_key).getD placeholderContext

/-- The two-message exchange of lines 191–205. -/
def mkMessages (context user_input : String) : List ChatMessage :=
  [⟨"system", systemPrompt context⟩, ⟨"user", user_input⟩]

/-- The response of the `try`/`except` arms of `/chat` (lines 219–228), as
a function of the completion call's outcome. -/
def dispatchOutcome : CompletionOutcome → HttpResponse
  | .success t => ⟨200, .chatResponse t⟩
  | .requestException m => ⟨503, .errorMsg ("Network error: " ++ m)⟩
  | .apiError m => ⟨500, .errorMsg ("Together API error: " ++ m)⟩
  | .otherError m => ⟨500, .errorMsg ("Unexpected error: " ++ m)⟩

/-- The `/chat` handler (lines 178–228).  `svc` is the external completion
service.  The handler reads the ambient session and database but never uses
them; it writes nothing. -/
def chat (svc : List ChatMessage → GenParams → CompletionOutcome)
    (st : ServerState) (sessionUserId : Option Nat)
    (inputField api_keyField : Option String) : ServerState × HttpResponse :=
  if isBlank inputField || isBlank api_keyField then
    (st, ⟨400, .errorMsg "Input and API key are required"⟩)
  else
    let user_input := inputField.getD ""
    let api_key := api_keyField.getD ""
    let context := resolveContext st.extracted_texts api_key
    (st, dispatchOutcome (svc (mkMessages context user_input) chatGenParams))

/-- The `/delete_api_key` handler (lines 318–340).  When the session points
at no row, `User.query.get` yields `None` and the attribute access raises;
Flask turns the unhandled exception into a 500. -/
def delete_api_key (st : ServerState) (sessionUserId : Option Nat)
    (api_keyField : Option String) : ServerState × HttpResponse :=
  match sessionUserId with
  | none => (st, ⟨401, .errorMsg "User not logged in"⟩)
  | some uid =>
    if isBlank api_keyField then (st, ⟨400, .errorMsg "No API key provided"⟩)
    else
      let api_key := api_keyField.getD ""
      match findUser st.users uid with
      | none => (st, ⟨500, .errorMsg "NoneType has no attribute api_keys"⟩)
      | some user =>
        if api_key ∈ user.api_keys then
          ({ st with
              users := updateUser st.users uid
                (fun u => { u with api_keys := u.api_keys.erase api_key })
              extracted_texts := dictPop st.extracted_texts api_key },
            ⟨200, .plainMsg "API key deleted successfully"⟩)
        else (st, ⟨404, .errorMsg "API key not found"⟩)

/-- Modelled from the spec: the admission check of the per-route rate
limiter (`@limiter.limit("5 per minute")`, keyed by remote address).  The
limiter's logic lives in the external `flask_limiter` library, not in
`src/`; the spec fixes its semantics as fixed-window counting — a window of
`windowLen` seconds starts at an identity's first recorded request and the
counters reset once the window's span has elapsed.  State: identity ↦
(window start, count). -/
structure RateState where
  windows : List (String × Nat × Nat)
deriving DecidableEq, Repr

/-- The rate-limiter state with no request recorded. -/
def emptyRate : RateState := ⟨[]⟩

/-- The recorded window of an identity, if any. -/
def rateLookup (rs : RateState) (idy : String) : Option (Nat × Nat) :=
  (rs.windows.find? (fun p => p.1 == idy)).map Prod.snd

/-- Record a window for an identity, replacing any previous one. -/
def rateSet (rs : RateState) (idy : String) (w : Nat × Nat) : RateState :=
  ⟨(idy, w) :: rs.windows.filter (fun p => p.1 != idy)⟩

/-- Modelled from the spec: `Admit(identity, operation)` for one fixed
window — admit and count the request unless the identity already made
`ceiling` requests in the current window; start a fresh window when none is
recorded or the recorded one has elapsed. -/
def admitReq (ceiling windowLen now : Nat) (rs : RateState) (idy : String) :
    Bool × RateState :=
  match rateLookup rs idy with
  | none => (true, rateSet rs idy (now, 1))
  | some w =>
    if w.1 + windowLen ≤ now then (true, rateSet rs idy (now, 1))
    else if w.2 < ceiling then (true, rateSet rs idy (w.1, w.2 + 1))
    else (false, rs)

/-- A sequence of admission checks by one identity at the given times. -/
def runAdmits (ceiling windowLen : Nat) (idy : String) :
    List Nat → RateState → List Bool × RateState
  | [], rs => ([], rs)
  | t :: ts, rs =>
    let a := admitReq ceiling windowLen t rs idy
    let r := runAdmits ceiling windowLen idy ts a.2
    (a.1 :: r.1, r.2)

/-- `/process_url` behind its `5 per minute` limiter: a denied request never
reaches the handler and is answered 429. -/
def process_url_limited (uuidHex : Nat → String)
    (fetch : String → Except String String) (commit : Except String Unit)
    (now : Nat) (idy : String) (rs : RateState) (st : ServerState)
    (sessionUserId : Option Nat) (url : Option String) :
    RateState × ServerState × HttpResponse :=
  let a := admitReq 5 60 now rs idy
  if a.1 then
    let r := process_url uuidHex fetch commit st sessionUserId url
    (a.2, r.1, r.2)
  else (a.2, st, ⟨429, .errorMsg "5 per 1 minute"⟩)

/-- `/chat` behind its `5 per minute` limiter. -/
def chat_limited (svc : List ChatMessage → GenParams → CompletionOutcome)
    (now : Nat) (idy : String) (rs : RateState) (st : ServerState)
    (sessionUserId : Option Nat) (inputField api_keyField : Option String) :
    RateState × ServerState × HttpResponse :=
  let a := admitReq 5 60 now rs idy
  if a.1 then
    let r := chat svc st sessionUserId inputField api_keyField
    (a.2, r.1, r.2)
  else (a.2, st, ⟨429, .errorMsg "5 per 1 minute"⟩)

/-! Helper lemmas about the store and the key supply. -/

theorem dictGet_dictInsert_self (d : Dict) (k v : String) :
    dictGet (dictInsert d k v) k = some v := by
  simp [dictGet, dictInsert, List.find?]

theorem dictGet_dictPop_self (d : Dict) (k : String) :
    dictGet (dictPop d k) k = none := by
  induction d with
  | nil => rfl
  | cons p d ih =>
    by_cases h : p.1 = k
    · simpa [dictPop, dictGet, h] using ih
    · simpa [dictPop, dictGet, List.find?, h] using ih

theorem mkApiKey_inj {a b : String} (h : mkApiKey a = mkApiKey b) : a = b := by
  have hd := congrArg String.data h
  simp only [mkApiKey, String.data_append] at hd
  exact String.ext (List.append_cancel_left hd)

theorem keysFrom_mem {u : Nat → String} {n : Nat} :
    ∀ {c : Nat} {k : String}, k ∈ keysFrom u c n →
      ∃ i, i < n ∧ k = mkApiKey (u (c + i)) := by
  induction n with
  | zero => intro c k hk; simp [keysFrom] at hk
  | succ n ih =>
    intro c k hk
    rcases List.mem_cons.mp hk with h | h
    · exact ⟨0, Nat.succ_pos n, by simpa using h⟩
    · obtain ⟨i, hi, hik⟩ := ih h
      exact ⟨i + 1, Nat.succ_lt_succ hi,
        by rw [hik, Nat.add_assoc, Nat.add_comm 1 i]⟩

theorem keysFrom_nodup {u : Nat → String} (hinj : Function.Injective u)
    (n : Nat) : ∀ c, (keysFrom u c n).Nodup := by
  induction n with
  | zero => intro c; simp [keysFrom]
  | succ n ih =>
    intro c
    refine List.nodup_cons.mpr ⟨?_, ih (c + 1)⟩
    intro hmem
    obtain ⟨i, _, hik⟩ := keysFrom_mem hmem
    have := hinj (mkApiKey_inj hik)
    omega

theorem runPuts_fst (u : Nat → String) (ts : List String) :
    ∀ st : ServerState, (runPuts u st ts).1 = keysFrom u st.uuidCount ts.length := by
  induction ts with
  | nil => intro st; rfl
  | cons t ts ih => intro st; simp [runPuts, keysFrom, putText, ih]

/-! The claims. -/

/-- C1: every successful `Put` returns a key distinct from every other key
issued over the store's lifetime (given that the uuid hex draws never
collide, which is the source's collision-resistance assumption), and an
immediate `Get` with the returned key yields exactly the stored text. -/
theorem C1_put_unique_get (u : Nat → String) (hinj : Function.Injective u)
    (ts : List String) (users : List UserRec) (st : ServerState) (t : String) :
    ((runPuts u (initialState users) ts).1.Pairwise (· ≠ ·)) ∧
    dictGet (putText u st t).2.extracted_texts (putText u st t).1 = some t := by
  constructor
  · rw [runPuts_fst]
    exact keysFrom_nodup hinj ts.length _
  · simp [putText, dictGet_dictInsert_self]

/-- A collision-free uuid stream for the witnesses. -/
def wUuid (n : Nat) : String := String.mk (List.replicate n 'a')

theorem wUuid_inj : Function.Injective wUuid := by
  intro a b h
  have hd : List.replicate a 'a' = List.replicate b 'a' := congrArg String.data h
  simpa using congrArg List.length hd

/-- Witness for C1: two puts from a fresh store issue distinct keys, and a
put at an arbitrary store state is immediately readable. -/
theorem C1_put_unique_get_witness :
    ((runPuts wUuid (initialState []) ["alpha", "beta"]).1.Pairwise (· ≠ ·)) ∧
    dictGet (putText wUuid (initialState []) "gamma").2.extracted_texts
      (putText wUuid (initialState []) "gamma").1 = some "gamma" :=
  C1_put_unique_get wUuid wUuid_inj ["alpha", "beta"] [] (initialState []) "gamma"

/-- C9: the `/chat` handler performs no authentication or ownership check —
with the same input field, api_key field, completion service and context
store contents, the response and the constructed prompt are identical
whatever the session state and whatever the `User` table holds. -/
theorem C9_chat_session_independent
    (svc : List ChatMessage → GenParams → CompletionOutcome) (texts : Dict)
    (users1 users2 : List UserRec) (n1 n2 : Nat) (sess1 sess2 : Option Nat)
    (i k : Option String) (ii kk : String) :
    (chat svc ⟨texts, users1, n1⟩ sess1 i k).2 =
      (chat svc ⟨texts, users2, n2⟩ sess2 i k).2 ∧
    mkMessages (resolveContext (ServerState.mk texts users1 n1).extracted_texts kk) ii =
      mkMessages (resolveContext (ServerState.mk texts users2 n2).extracted_texts kk) ii := by
  refine ⟨?_, rfl⟩
  by_cases h : (isBlank i || isBlank k) = true
  · simp [chat, h]
  · simp [chat, h]

/-- C10: `/chat` never mutates the shared state — on the success path and
on every error path the context store and the `User` table are returned
unchanged. -/
theorem C10_chat_frame
    (svc : List ChatMessage → GenParams → CompletionOutcome)
    (st : ServerState) (sess : Option Nat) (i k : Option String) :
    (chat svc st sess i k).1 = st := by
  unfold chat
  split <;> rfl

theorem isBlank_some_of_ne {s : String} (h : s ≠ "") : isBlank (some s) = false := by
  simpa [isBlank] using h

theorem dispatchOutcome_status_ne_404 (o : CompletionOutcome) :
    (dispatchOutcome o).status ≠ 404 := by
  cases o <;> simp [dispatchOutcome]

/-- C2: a chat request whose context key is absent from the store resolves
the fixed placeholder context and still returns a response; no chat request
is ever answered with a not-found status. -/
theorem C2_absent_key_placeholder
    (svc svc2 : List ChatMessage → GenParams → CompletionOutcome)
    (st st2 : ServerState) (sess sess2 : Option Nat)
    (user_input api_key t : String) (i2 k2 : Option String)
    (habsent : dictGet st.extracted_texts api_key = none)
    (hin : user_input ≠ "") (hk : api_key ≠ "")
    (hsvc : svc (mkMessages placeholderContext user_input) chatGenParams =
      .success t) :
    chat svc st sess (some user_input) (some api_key) =
      (st, ⟨200, .chatResponse t⟩) ∧
    resolveContext st.extracted_texts api_key = placeholderContext ∧
    (chat svc2 st2 sess2 i2 k2).2.status ≠ 404 := by
  have hctx : resolveContext st.extracted_texts api_key = placeholderContext := by
    simp [resolveContext, habsent]
  refine ⟨?_, hctx, ?_⟩
  · simp [chat, isBlank_some_of_ne hin, isBlank_some_of_ne hk, hctx, hsvc,
      dispatchOutcome]
  · by_cases h : (isBlank i2 || isBlank k2) = true
    · simp [chat, h]
    · simp [chat, h, dispatchOutcome_status_ne_404]

/-- A completion service that always answers with the text "ok". -/
def wSvcOk : List ChatMessage → GenParams → CompletionOutcome :=
  fun _ _ => .success "ok"

/-- Witness for C2: chatting against an empty store with a never-issued key
succeeds with the placeholder context. -/
theorem C2_absent_key_placeholder_witness :
    chat wSvcOk (initialState []) none (some "hi") (some "user_bogus") =
      (initialState [], ⟨200, .chatResponse "ok"⟩) ∧
    resolveContext (initialState []).extracted_texts "user_bogus" =
      placeholderContext ∧
    (chat wSvcOk (initialState []) none (some "hi") (some "user_bogus")).2.status ≠ 404 :=
  C2_absent_key_placeholder wSvcOk wSvcOk (initialState []) (initialState [])
    none none "hi" "user_bogus" "ok" (some "hi") (some "user_bogus") rfl
    (by decide) (by decide) rfl

/-- C6: `/chat` answers 400 with an error payload when the input or the
api_key field is missing, 503 on a network failure of the completion call,
500 on any other failure, and a `{response}` payload on success. -/
theorem C6_chat_status_mapping
    (svcS svcN svcA svcO : List ChatMessage → GenParams → CompletionOutcome)
    (st st0 : ServerState) (sess sess0 : Option Nat)
    (i k t mN mA mO : String) (anyField : Option String)
    (hi : i ≠ "") (hk : k ≠ "")
    (hS : svcS (mkMessages (resolveContext st.extracted_texts k) i) chatGenParams =
      .success t)
    (hN : svcN (mkMessages (resolveContext st.extracted_texts k) i) chatGenParams =
      .requestException mN)
    (hA : svcA (mkMessages (resolveContext st.extracted_texts k) i) chatGenParams =
      .apiError mA)
    (hO : svcO (mkMessages (resolveContext st.extracted_texts k) i) chatGenParams =
      .otherError mO) :
    chat svcS st sess (some i) (some k) = (st, ⟨200, .chatResponse t⟩) ∧
    chat svcN st sess (some i) (some k) =
      (st, ⟨503, .errorMsg ("Network error: " ++ mN)⟩) ∧
    chat svcA st sess (some i) (some k) =
      (st, ⟨500, .errorMsg ("Together API error: " ++ mA)⟩) ∧
    chat svcO st sess (some i) (some k) =
      (st, ⟨500, .errorMsg ("Unexpected error: " ++ mO)⟩) ∧
    chat svcS st0 sess0 none anyField =
      (st0, ⟨400, .errorMsg "Input and API key are required"⟩) ∧
    chat svcS st0 sess0 anyField none =
      (st0, ⟨400, .errorMsg "Input and API key are required"⟩) := by
  have hib := isBlank_some_of_ne hi
  have hkb := isBlank_some_of_ne hk
  refine ⟨?_, ?_, ?_, ?_, ?_, ?_⟩ <;>
    simp [chat, hib, hkb, hS, hN, hA, hO, dispatchOutcome, isBlank, hi, hk]

/-- A completion service whose call raises a network error. -/
def wSvcNet : List ChatMessage → GenParams → CompletionOutcome :=
  fun _ _ => .requestException "connection refused"

/-- A completion service whose call raises a Together API error. -/
def wSvcApi : List ChatMessage → GenParams → CompletionOutcome :=
  fun _ _ => .apiError "quota"

/-- A completion service whose call raises some other exception. -/
def wSvcOther : List ChatMessage → GenParams → CompletionOutcome :=
  fun _ _ => .otherError "boom"

/-- Witness for C6 with one concrete service per outcome. -/
theorem C6_chat_status_mapping_witness :
    chat wSvcOk (initialState []) none (some "q") (some "user_b") =
      (initialState [], ⟨200, .chatResponse "ok"⟩) ∧
    chat wSvcNet (initialState []) none (some "q") (some "user_b") =
      (initialState [], ⟨503, .errorMsg ("Network error: " ++ "connection refused")⟩) ∧
    chat wSvcApi (initialState []) none (some "q") (some "user_b") =
      (initialState [], ⟨500, .errorMsg ("Together API error: " ++ "quota")⟩) ∧
    chat wSvcOther (initialState []) none (some "q") (some "user_b") =
      (initialState [], ⟨500, .errorMsg ("Unexpected error: " ++ "boom")⟩) ∧
    chat wSvcOk (initialState []) none none (some "q") =
      (initialState [], ⟨400, .errorMsg "Input and API key are required"⟩) ∧
    chat wSvcOk (initialState []) none (some "q") none =
      (initialState [], ⟨400, .errorMsg "Input and API key are required"⟩) :=
  C6_chat_status_mapping wSvcOk wSvcNet wSvcApi wSvcOther (initialState [])
    (initialState []) none none "q" "user_b" "ok" "connection refused" "quota"
    "boom" (some "q") (by decide) (by decide) rfl rfl rfl rfl

/-- C7: for an admitted chat request the dispatcher builds exactly the
two-message exchange — a system message embedding the resolved context
between the fixed prompt prefix and the fixed response policy, then the
user's message — calls the completion service with the pinned generation
parameters, and returns the service's text verbatim. -/
theorem C7_prompt_and_params
    (svc : List ChatMessage → GenParams → CompletionOutcome) (st : ServerState)
    (sess : Option Nat) (i k t : String) (hi : i ≠ "") (hk : k ≠ "")
    (hsvc : svc (mkMessages (resolveContext st.extracted_texts k) i) chatGenParams =
      .success t) :
    mkMessages (resolveContext st.extracted_texts k) i =
      [⟨"system", promptPrefix ++ resolveContext st.extracted_texts k ++ responsePolicy⟩,
        ⟨"user", i⟩] ∧
    chatGenParams.max_tokens = 512 ∧
    chatGenParams.temperatureTenths = 7 ∧
    chatGenParams.topPTenths = 7 ∧
    chatGenParams.top_k = 50 ∧
    chatGenParams.stop = ["<|eot_id|>", "<|eom_id|>"] ∧
    chat svc st sess (some i) (some k) = (st, ⟨200, .chatResponse t⟩) := by
  refine ⟨rfl, rfl, rfl, rfl, rfl, rfl, ?_⟩
  simp [chat, isBlank_some_of_ne hi, isBlank_some_of_ne hk, hsvc, dispatchOutcome]

/-- A store holding one ingested document, for the witnesses. -/
def wStore : ServerState :=
  ⟨[("user_k", "the page text")], [⟨1, "a@b.c", "hash", ["user_k"]⟩], 1⟩

/-- Witness for C7 on a store with one ingested document. -/
theorem C7_prompt_and_params_witness :
    mkMessages (resolveContext wStore.extracted_texts "user_k") "what is this" =
      [⟨"system", promptPrefix ++ resolveContext wStore.extracted_texts "user_k" ++
          responsePolicy⟩,
        ⟨"user", "what is this"⟩] ∧
    chatGenParams.max_tokens = 512 ∧
    chatGenParams.temperatureTenths = 7 ∧
    chatGenParams.topPTenths = 7 ∧
    chatGenParams.top_k = 50 ∧
    chatGenParams.stop = ["<|eot_id|>", "<|eom_id|>"] ∧
    chat wSvcOk wStore none (some "what is this") (some "user_k") =
      (wStore, ⟨200, .chatResponse "ok"⟩) :=
  C7_prompt_and_params wSvcOk wStore none "what is this" "user_k" "ok"
    (by decide) (by decide) rfl

/-- Counterexample for C5: the claim says an unauthenticated `/process_url`
request is answered 400, but the handler answers an unauthenticated request
with status 401 (line 149 of `app.py`). -/
theorem C5_unauthenticated_counterexample :
    (process_url wUuid (fun _ => Except.ok "text") (Except.ok ())
        (initialState []) none (some "http://example.com")).2 =
      ⟨401, .errorMsg "User not logged in"⟩ ∧
    (process_url wUuid (fun _ => Except.ok "text") (Except.ok ())
        (initialState []) none (some "http://example.com")).2.status ≠ 400 := by
  exact ⟨rfl, by decide⟩

/-- C5 (amended): an unauthenticated `/process_url` request is answered 401
with an error payload, a request missing the URL field (or with an empty
one) 400, and a document fetch failure or a registry commit failure 500. -/
theorem C5_amended_status_mapping
    (u : Nat → String) (fetch fetchF : String → Except String String)
    (commit commitF : Except String Unit) (st : ServerState) (uid : Nat)
    (usr : UserRec) (urlStr text eF eC : String) (anyUrl : Option String)
    (hurl : urlStr ≠ "")
    (hfS : fetch urlStr = Except.ok text)
    (hfF : fetchF urlStr = Except.error eF)
    (hu : findUser st.users uid = some usr)
    (hcF : commitF = Except.error eC) :
    (process_url u fetch commit st none anyUrl).2 =
      ⟨401, .errorMsg "User not logged in"⟩ ∧
    (process_url u fetch commit st (some uid) none).2 =
      ⟨400, .errorMsg "No URL provided"⟩ ∧
    (process_url u fetch commit st (some uid) (some "")).2 =
      ⟨400, .errorMsg "No URL provided"⟩ ∧
    (process_url u fetchF commit st (some uid) (some urlStr)).2 =
      ⟨500, .errorMsg eF⟩ ∧
    (process_url u fetch commitF st (some uid) (some urlStr)).2 =
      ⟨500, .errorMsg eC⟩ := by
  have hb := isBlank_some_of_ne hurl
  refine ⟨rfl, rfl, ?_, ?_, ?_⟩
  · simp [process_url, isBlank]
  · simp [process_url, hb, hfF]
  · simp [process_url, putText, hb, hfS, hu, hcF]

/-- Witness for C5 (amended) on concrete oracles and a one-user store. -/
theorem C5_amended_status_mapping_witness :
    (process_url wUuid (fun _ => Except.ok "T") (Except.ok ()) wStore none
        (some "http://e.com")).2 = ⟨401, .errorMsg "User not logged in"⟩ ∧
    (process_url wUuid (fun _ => Except.ok "T") (Except.ok ()) wStore (some 1)
        none).2 = ⟨400, .errorMsg "No URL provided"⟩ ∧
    (process_url wUuid (fun _ => Except.ok "T") (Except.ok ()) wStore (some 1)
        (some "")).2 = ⟨400, .errorMsg "No URL provided"⟩ ∧
    (process_url wUuid (fun _ => Except.error "fetch failed") (Except.ok ())
        wStore (some 1) (some "http://e.com")).2 =
      ⟨500, .errorMsg "fetch failed"⟩ ∧
    (process_url wUuid (fun _ => Except.ok "T") (Except.error "commit failed")
        wStore (some 1) (some "http://e.com")).2 =
      ⟨500, .errorMsg "commit failed"⟩ :=
  C5_amended_status_mapping wUuid (fun _ => Except.ok "T")
    (fun _ => Except.error "fetch failed") (Except.ok ())
    (Except.error "commit failed") wStore 1 ⟨1, "a@b.c", "hash", ["user_k"]⟩
    "http://e.com" "T" "fetch failed" "commit failed" (some "http://e.com")
    (by decide) rfl rfl rfl rfl

/-- C8: ingestion inserts the new entry into the context store before the
registry is touched — the store holds the entry whatever the registry
commit's outcome; when the commit fails the handler answers 500, the
registry is unchanged, and the already-inserted entry is left in place (no
rollback); when it succeeds exactly the new key is appended to the
account's key list. -/
theorem C8_registry_after_store
    (u : Nat → String) (fetch : String → Except String String)
    (commit commitF : Except String Unit) (st : ServerState) (uid : Nat)
    (usr : UserRec) (urlStr text eC : String)
    (hurl : urlStr ≠ "") (hfS : fetch urlStr = Except.ok text)
    (hu : findUser st.users uid = some usr)
    (hcF : commitF = Except.error eC) :
    dictGet (process_url u fetch commit st (some uid) (some urlStr)).1.extracted_texts
        (mkApiKey (u st.uuidCount)) = some text ∧
    (process_url u fetch commitF st (some uid) (some urlStr)).1.users = st.users ∧
    (process_url u fetch commitF st (some uid) (some urlStr)).2 =
      ⟨500, .errorMsg eC⟩ ∧
    (process_url u fetch (Except.ok ()) st (some uid) (some urlStr)).1.users =
      updateUser st.users uid
        (fun w => { w with api_keys := w.api_keys ++ [mkApiKey (u st.uuidCount)] }) := by
  have hb := isBlank_some_of_ne hurl
  refine ⟨?_, ?_, ?_, ?_⟩
  · cases commit <;>
      simp [process_url, putText, hb, hfS, hu, dictGet_dictInsert_self]
  · simp [process_url, putText, hb, hfS, hu, hcF]
  · simp [process_url, putText, hb, hfS, hu, hcF]
  · simp [process_url, putText, hb, hfS, hu]

/-- Witness for C8 on concrete oracles and the one-user store. -/
theorem C8_registry_after_store_witness :
    dictGet (process_url wUuid (fun _ => Except.ok "T2") (Except.ok ()) wStore
        (some 1) (some "http://e.com")).1.extracted_texts
        (mkApiKey (wUuid wStore.uuidCount)) = some "T2" ∧
    (process_url wUuid (fun _ => Except.ok "T2") (Except.error "commit failed")
        wStore (some 1) (some "http://e.com")).1.users = wStore.users ∧
    (process_url wUuid (fun _ => Except.ok "T2") (Except.error "commit failed")
        wStore (some 1) (some "http://e.com")).2 =
      ⟨500, .errorMsg "commit failed"⟩ ∧
    (process_url wUuid (fun _ => Except.ok "T2") (Except.ok ()) wStore (some 1)
        (some "http://e.com")).1.users =
      updateUser wStore.users 1
        (fun w => { w with api_keys := w.api_keys ++ [mkApiKey (wUuid wStore.uuidCount)] }) :=
  C8_registry_after_store wUuid (fun _ => Except.ok "T2") (Except.ok ())
    (Except.error "commit failed") wStore 1 ⟨1, "a@b.c", "hash", ["user_k"]⟩
    "http://e.com" "T2" "commit failed" (by decide) rfl rfl rfl

theorem findUser_updateUser (users : List UserRec) (uid : Nat)
    (f : UserRec → UserRec) (hf : ∀ w, (f w).id = w.id) :
    findUser (updateUser users uid f) uid = (findUser users uid).map f := by
  induction users with
  | nil => rfl
  | cons u us ih =>
    by_cases h : u.id = uid
    · simp [findUser, updateUser, List.find?, h, hf]
    · simp only [findUser, updateUser, List.map_cons] at ih ⊢
      rw [if_neg (by simpa using h)]
      rw [List.find?_cons_of_neg _ (by simpa using h),
        List.find?_cons_of_neg _ (by simpa using h)]
      exact ih

/-- Counterexample for C4: the claim says the second delete of the same key
is not an error, but the second `/delete_api_key` call on an owned key is
answered with a 404 `{error}` payload. -/
theorem C4_second_delete_errors_counterexample :
    (delete_api_key wStore (some 1) (some "user_k")).2.status = 200 ∧
    (delete_api_key (delete_api_key wStore (some 1) (some "user_k")).1
        (some 1) (some "user_k")).2 = ⟨404, .errorMsg "API key not found"⟩ := by
  exact ⟨rfl, rfl⟩

/-- C4 (amended): deleting the same owned key twice removes the entry the
first time — 200, the key leaves the account's list and its text leaves the
context store — and the second call removes nothing and changes no state
(the removal is idempotent in effect), but it reports the miss as a 404
`{error}` response rather than as a non-error `false`. -/
theorem C4_amended_delete_twice
    (st : ServerState) (uid : Nat) (usr : UserRec) (k : String)
    (hu : findUser st.users uid = some usr) (hk : k ∈ usr.api_keys)
    (hkne : k ≠ "") (hnodup : usr.api_keys.Nodup) :
    (delete_api_key st (some uid) (some k)).2 =
      ⟨200, .plainMsg "API key deleted successfully"⟩ ∧
    dictGet (delete_api_key st (some uid) (some k)).1.extracted_texts k = none ∧
    (delete_api_key (delete_api_key st (some uid) (some k)).1 (some uid)
        (some k)).2 = ⟨404, .errorMsg "API key not found"⟩ ∧
    (delete_api_key (delete_api_key st (some uid) (some k)).1 (some uid)
        (some k)).1 = (delete_api_key st (some uid) (some k)).1 := by
  have hb := isBlank_some_of_ne hkne
  have hf : ∀ w : UserRec,
      ({ w with api_keys := w.api_keys.erase k } : UserRec).id = w.id :=
    fun _ => rfl
  have h1 : delete_api_key st (some uid) (some k) =
      ({ st with
          users := updateUser st.users uid
            (fun u => { u with api_keys := u.api_keys.erase k })
          extracted_texts := dictPop st.extracted_texts k },
        ⟨200, .plainMsg "API key deleted successfully"⟩) := by
    simp [delete_api_key, hb, hu, hk]
  have hu2 : findUser (updateUser st.users uid
      (fun u => { u with api_keys := u.api_keys.erase k })) uid =
      some { usr with api_keys := usr.api_keys.erase k } := by
    rw [findUser_updateUser _ _ _ hf, hu]; rfl
  have hnot : k ∉ usr.api_keys.erase k := by
    intro hmem
    exact (hnodup.mem_erase_iff.mp hmem).1 rfl
  refine ⟨by rw [h1], ?_, ?_, ?_⟩
  · rw [h1]; exact dictGet_dictPop_self _ _
  · rw [h1]; simp [delete_api_key, hb, hu2, hnot]
  · rw [h1]; simp [delete_api_key, hb, hu2, hnot]

/-- Witness for C4 (amended) on the one-user store. -/
theorem C4_amended_delete_twice_witness :
    (delete_api_key wStore (some 1) (some "user_k")).2 =
      ⟨200, .plainMsg "API key deleted successfully"⟩ ∧
    dictGet (delete_api_key wStore (some 1) (some "user_k")).1.extracted_texts
      "user_k" = none ∧
    (delete_api_key (delete_api_key wStore (some 1) (some "user_k")).1
        (some 1) (some "user_k")).2 = ⟨404, .errorMsg "API key not found"⟩ ∧
    (delete_api_key (delete_api_key wStore (some 1) (some "user_k")).1
        (some 1) (some "user_k")).1 =
      (delete_api_key wStore (some 1) (some "user_k")).1 :=
  C4_amended_delete_twice wStore 1 ⟨1, "a@b.c", "hash", ["user_k"]⟩ "user_k"
    rfl (by decide) (by decide) (by decide)

/-! Stepping lemmas for the fixed-window rate limiter. -/

theorem admitReq_first {idy : String} {t : Nat} :
    admitReq 5 60 t emptyRate idy = (true, ⟨[(idy, (t, 1))]⟩) := rfl

theorem admitReq_in_window {idy : String} {t0 c t : Nat} (h : t < t0 + 60)
    (hc : c < 5) :
    admitReq 5 60 t ⟨[(idy, (t0, c))]⟩ idy = (true, ⟨[(idy, (t0, c + 1))]⟩) := by
  simp [admitReq, rateLookup, rateSet, List.find?, List.filter, Nat.not_le.mpr h, hc]

theorem admitReq_over_ceiling {idy : String} {t0 t : Nat} (h : t < t0 + 60) :
    admitReq 5 60 t ⟨[(idy, (t0, 5))]⟩ idy = (false, ⟨[(idy, (t0, 5))]⟩) := by
  simp [admitReq, rateLookup, List.find?, Nat.not_le.mpr h]

theorem admitReq_after_window {idy : String} {t0 c t : Nat} (h : t0 + 60 ≤ t) :
    admitReq 5 60 t ⟨[(idy, (t0, c))]⟩ idy = (true, ⟨[(idy, (t, 1))]⟩) := by
  simp [admitReq, rateLookup, rateSet, List.find?, List.filter, h]

/-- C3 (rate limiter modelled from the spec, `flask_limiter` being external
to `src/`): under the 5-per-minute ceiling, the five requests an identity
makes inside one 60-second window are admitted and the sixth inside the
same window is denied; a denied ingestion request is answered 429 and
leaves the server state untouched, so no context key is allocated for it
(and a denied chat request is answered 429 without reaching the handler);
once the window has elapsed, a request of the same identity is admitted
again. -/
theorem C3_rate_limit_window
    (idy : String) (t0 t1 t2 t3 t4 t5 t6 : Nat)
    (h1 : t1 < t0 + 60) (h2 : t2 < t0 + 60) (h3 : t3 < t0 + 60)
    (h4 : t4 < t0 + 60) (h5 : t5 < t0 + 60) (h6 : t0 + 60 ≤ t6)
    (u : Nat → String) (fetch : String → Except String String)
    (commit : Except String Unit)
    (svc : List ChatMessage → GenParams → CompletionOutcome)
    (st : ServerState) (sess : Option Nat) (url i2 k2 : Option String) :
    (runAdmits 5 60 idy [t0, t1, t2, t3, t4, t5] emptyRate).1 =
      [true, true, true, true, true, false] ∧
    process_url_limited u fetch commit t5 idy
        (runAdmits 5 60 idy [t0, t1, t2, t3, t4] emptyRate).2 st sess url =
      ((runAdmits 5 60 idy [t0, t1, t2, t3, t4] emptyRate).2, st,
        ⟨429, .errorMsg "5 per 1 minute"⟩) ∧
    chat_limited svc t5 idy
        (runAdmits 5 60 idy [t0, t1, t2, t3, t4] emptyRate).2 st sess i2 k2 =
      ((runAdmits 5 60 idy [t0, t1, t2, t3, t4] emptyRate).2, st,
        ⟨429, .errorMsg "5 per 1 minute"⟩) ∧
    (admitReq 5 60 t6
        (runAdmits 5 60 idy [t0, t1, t2, t3, t4, t5] emptyRate).2 idy).1 =
      true := by
  have a0 := @admitReq_first idy t0
  have a1 := @admitReq_in_window idy t0 1 t1 h1 (by norm_num)
  have a2 := @admitReq_in_window idy t0 2 t2 h2 (by norm_num)
  have a3 := @admitReq_in_window idy t0 3 t3 h3 (by norm_num)
  have a4 := @admitReq_in_window idy t0 4 t4 h4 (by norm_num)
  have a5 := @admitReq_over_ceiling idy t0 t5 h5
  have r5 : runAdmits 5 60 idy [t0, t1, t2, t3, t4] emptyRate =
      ([true, true, true, true, true], ⟨[(idy, (t0, 5))]⟩) := by
    simp [runAdmits, a0, a1, a2, a3, a4]
  have r6 : runAdmits 5 60 idy [t0, t1, t2, t3, t4, t5] emptyRate =
      ([true, true, true, true, true, false], ⟨[(idy, (t0, 5))]⟩) := by
    simp [runAdmits, a0, a1, a2, a3, a4, a5]
  refine ⟨by rw [r6], ?_, ?_, ?_⟩
  · rw [r5]; simp [process_url_limited, a5]
  · rw [r5]; simp [chat_limited, a5]
  · rw [r6]; rw [admitReq_after_window h6]

/-- Witness for C3: six requests in the seconds 0–50 of a minute and a
seventh at second 60. -/
theorem C3_rate_limit_window_witness :
    (runAdmits 5 60 "1.2.3.4" [0, 10, 20, 30, 40, 50] emptyRate).1 =
      [true, true, true, true, true, false] ∧
    process_url_limited wUuid (fun _ => Except.ok "T") (Except.ok ()) 50
        "1.2.3.4" (runAdmits 5 60 "1.2.3.4" [0, 10, 20, 30, 40] emptyRate).2
        wStore (some 1) (some "http://e.com") =
      ((runAdmits 5 60 "1.2.3.4" [0, 10, 20, 30, 40] emptyRate).2, wStore,
        ⟨429, .errorMsg "5 per 1 minute"⟩) ∧
    chat_limited wSvcOk 50 "1.2.3.4"
        (runAdmits 5 60 "1.2.3.4" [0, 10, 20, 30, 40] emptyRate).2 wStore
        (some 1) (some "hi") (some "user_k") =
      ((runAdmits 5 60 "1.2.3.4" [0, 10, 20, 30, 40] emptyRate).2, wStore,
        ⟨429, .errorMsg "5 per 1 minute"⟩) ∧
    (admitReq 5 60 60
        (runAdmits 5 60 "1.2.3.4" [0, 10, 20, 30, 40, 50] emptyRate).2
        "1.2.3.4").1 = true :=
  C3_rate_limit_window "1.2.3.4" 0 10 20 30 40 50 60 (by decide) (by decide)
    (by decide) (by decide) (by decide) (by decide) wUuid
    (fun _ => Except.ok "T") (Except.ok ()) wSvcOk wStore (some 1)
    (some "http://e.com") (some "hi") (some "user_k")

end Infinity
